import Mathlib

/-!
Verification of the dedup cache and filter predicates of the
DexScreener trend-alert script (`src/main.py`).

Modelling conventions:
* Python `str` is modelled as `List Char` (`PyStr`); `None`-able values as
  `Option PyStr`.
* Python `float` timestamps and parsed percentages are modelled as `ℚ`.
* The in-memory dict `self.sent_tokens` is an insertion-ordered association
  list with unique keys; dict assignment is `dictInsert`, membership/access
  is `List.lookup`.
* Exceptions are modelled with `Except PyError`; a Python `try/except`
  that swallows an exception is a `match` mapping the `.error` branch to
  the fallback value.
* External effects (the cache file on disk, the Telegram HTTP call) are
  modelled by oracles: a `DiskRead` value for what reading the cache file
  yields, and `Bool` flags `httpOk` / `writeOk` for whether the HTTP
  request and the disk write succeed.  `datetime.now().timestamp()` is an
  explicit `now : ℚ` argument.
-/

set_option maxRecDepth 4000

/-- Decidable equality for `Except`, needed to evaluate the embedded
functions on concrete inputs. -/
instance exceptDecEq {ε α : Type} [DecidableEq ε] [DecidableEq α] :
    DecidableEq (Except ε α) := fun x y =>
  match x, y with
  | .ok a, .ok b =>
    if h : a = b then .isTrue (by rw [h]) else .isFalse (by simp [h])
  | .error a, .error b =>
    if h : a = b then .isTrue (by rw [h]) else .isFalse (by simp [h])
  | .ok _, .error _ => .isFalse (by simp)
  | .error _, .ok _ => .isFalse (by simp)

/-- Python strings, modelled as their character sequences. -/
abbrev PyStr := List Char

/-- The Python exception kinds this script can raise or catch. -/
inductive PyError where
  /-- `AttributeError`, e.g. calling `.replace` or `.split` on `None`. -/
  | attributeError
  /-- `ValueError`, e.g. `float()` on a non-numeric string, `json.load` on garbage. -/
  | valueError
  /-- `OSError`/`IOError` from file operations. -/
  | ioError
  /-- `requests.exceptions.RequestException` (includes `HTTPError`). -/
  | requestException
deriving DecidableEq, Repr

/-- `s.replace(old_char, "")` for a one-character pattern: removes every
occurrence of the character. -/
def pyRemoveChar (c : Char) (s : PyStr) : PyStr :=
  s.filter (fun x => x ≠ c)

/-- The stripping done in `check_price_changes` line 145:
`.replace("%", "").replace(",", "")`. -/
def pyStrip (s : PyStr) : PyStr :=
  pyRemoveChar ',' (pyRemoveChar '%' s)

/-- Python `str.isdigit()` restricted to ASCII digits (the only digits this
page produces): true iff the string is nonempty and all characters are
digits. -/
def pyIsdigit (s : PyStr) : Bool :=
  !s.isEmpty && s.all Char.isDigit

/-- Numeric value of a string of decimal digits. -/
def digitsToNat (s : PyStr) : Nat :=
  s.foldl (fun a c => 10 * a + (c.toNat - 48)) 0

/-- Value of `<intPart>.<fracPart>` as a rational. -/
def decimalValue (intPart fracPart : PyStr) : ℚ :=
  (digitsToNat intPart : ℚ) + (digitsToNat fracPart : ℚ) / (10 ^ fracPart.length : ℚ)

/-- Python `float(s)`, modelled on the grammar this program exercises:
an optional sign followed by decimal digits with an optional fractional
part (`"3"`, `"1.2"`, `"-0.1"`, `".5"`, `"5."`).  Exponents, `inf`/`nan`
and surrounding whitespace never occur in the scraped percentage fields
and are not modelled.  `none` is the `ValueError` case. -/
def pyFloat (s : PyStr) : Option ℚ :=
  let signed : ℚ × PyStr :=
    match s with
    | '+' :: rest => (1, rest)
    | '-' :: rest => (-1, rest)
    | rest => (1, rest)
  let sign := signed.1
  let body := signed.2
  let intPart := body.takeWhile Char.isDigit
  let rest := body.dropWhile Char.isDigit
  match rest with
  | [] => if intPart.isEmpty then none else some (sign * (digitsToNat intPart : ℚ))
  | '.' :: frac =>
    if frac.all Char.isDigit ∧ (intPart ≠ [] ∨ frac ≠ []) then
      some (sign * decimalValue intPart frac)
    else none
  | _ => none

/-- Last component of `url.split("/")`: the characters after the last `/`
(the whole string when there is no `/`).  Models
`coin_data["ds_url"].split("/")[-1]`. -/
def pySplitLast (sep : Char) (s : PyStr) : PyStr :=
  s.foldl (fun acc c => if c = sep then [] else acc ++ [c]) []

/-- Python `s.endswith(c)` for a one-character suffix. -/
def pyEndsWith (s : PyStr) (c : Char) : Bool :=
  s.getLast? == some c

/-- One scraped table row (`get_coin_data` result): every field is
`Option PyStr` because a per-field extraction failure stores `None`
(`main.py` line 135). -/
structure CoinData where
  ds_url : Option PyStr
  price_change_m5 : Option PyStr
  price_change_h1 : Option PyStr
  price_change_h6 : Option PyStr
  price_change_h24 : Option PyStr
  token_symbol : Option PyStr
  price : Option PyStr
  pair_age : Option PyStr
  txns : Option PyStr
  volume : Option PyStr
  makers : Option PyStr
  liquidity : Option PyStr
  market_cap : Option PyStr
deriving DecidableEq, Repr

/-- The in-memory sent-token cache: token address → last-sent timestamp. -/
abbrev Cache := List (PyStr × ℚ)

/-- Python dict assignment `d[k] = v` on the association-list model:
replace the value at the first occurrence of `k`, else append. -/
def dictInsert (k : PyStr) (v : ℚ) : Cache → Cache
  | [] => [(k, v)]
  | (k', v') :: rest =>
    if k' == k then (k, v) :: rest else (k', v') :: dictInsert k v rest

/-- The mutable state of a `DexScreenerScraper` plus its observable
environment: the in-memory cache, the persisted cache file (`none` when no
file exists), and two instrumentation counters for the externally
observable effects (HTTP notification requests performed, successful cache
file writes). -/
structure ScraperState where
  sent_tokens : Cache
  disk : Option Cache
  notifications : Nat
  cacheWrites : Nat
deriving DecidableEq, Repr

/-- What reading the persisted cache file yields: the file is absent,
unreadable/corrupt (so `json.load` raises), or holds a mapping. -/
inductive DiskRead where
  | missing
  | corrupt
  | content (m : Cache)
deriving DecidableEq

/-- The body of the `try` block of `load_cache` (lines 48–64): if the file
exists, parse it (`.corrupt` raises) and prune entries older than 24
hours; otherwise start with an empty dict. -/
def load_cache_attempt (d : DiskRead) (now : ℚ) : Except PyError Cache :=
  match d with
  | .missing => .ok []
  | .corrupt => .error .valueError
  | .content m => .ok (m.filter (fun p => decide (now - p.2 < 24 * 3600)))

/-- `load_cache` (lines 47–67): any exception is caught and logged and the
cache falls back to empty. -/
def load_cache (d : DiskRead) (now : ℚ) : Cache :=
  match load_cache_attempt d now with
  | .ok m => m
  | .error _ => []

/-- The body of the `try` block of `save_cache` (lines 71–74): write the
whole in-memory mapping to the cache file; the write can fail
(`writeOk = false` models an `OSError` from `open`/`json.dump`). -/
def save_cache_attempt (writeOk : Bool) (st : ScraperState) : Except PyError ScraperState :=
  if writeOk then
    .ok { st with disk := some st.sent_tokens, cacheWrites := st.cacheWrites + 1 }
  else .error .ioError

/-- `save_cache` (lines 69–76): the `except Exception` clause catches any
write failure, logs it, and returns normally with the state otherwise
untouched. -/
def save_cache (writeOk : Bool) (st : ScraperState) : ScraperState :=
  match save_cache_attempt writeOk st with
  | .ok st' => st'
  | .error _ => st

/-- `was_token_sent_recently` (lines 78–83): look the address up in
`self.sent_tokens`; if present, test `now - timestamp < 24 * 3600`, else
`False`.  The method only reads the state, so it returns the state
unchanged alongside the result. -/
def was_token_sent_recently (now : ℚ) (token_address : PyStr) (st : ScraperState) :
    Bool × ScraperState :=
  (match List.lookup token_address st.sent_tokens with
   | some ts => decide (now - ts < 24 * 3600)
   | none => false,
   st)

/-- `mark_token_as_sent` (lines 85–87): record `now` for the address, then
persist the whole cache. -/
def mark_token_as_sent (writeOk : Bool) (now : ℚ) (token_address : PyStr)
    (st : ScraperState) : ScraperState :=
  save_cache writeOk { st with sent_tokens := dictInsert token_address now st.sent_tokens }

/-- The list comprehension of `check_price_changes` (lines 144–146),
evaluated field by field in order.  A `None` field raises
`AttributeError` at `.replace` (uncaught: `.error`); a string that
`float()` rejects raises `ValueError`, which the enclosing `except
ValueError` catches (`.ok none`); otherwise all four parsed values are
produced (`.ok (some vs)`). -/
def parse_changes : List (Option PyStr) → Except PyError (Option (List ℚ))
  | [] => .ok (some [])
  | none :: _ => .error .attributeError
  | some s :: rest =>
    match pyFloat (pyStrip s) with
    | none => .ok none
    | some q =>
      match parse_changes rest with
      | .error e => .error e
      | .ok none => .ok none
      | .ok (some qs) => .ok (some (q :: qs))

/-- `check_price_changes` (lines 141–153): parse the four percentage
fields (m5, h1, h6, h24 in that order) and test that all are strictly
positive; a `ValueError` is caught and yields `False`; an
`AttributeError` from a `None` field propagates. -/
def check_price_changes (c : CoinData) : Except PyError Bool :=
  match parse_changes
      [c.price_change_m5, c.price_change_h1, c.price_change_h6, c.price_change_h24] with
  | .error e => .error e
  | .ok none => .ok false
  | .ok (some qs) => .ok (qs.all (fun q => decide (0 < q)))

/-- `check_pair_age` (lines 155–163).  `not pair_age` is true for both
`None` and the empty string, so those return `False` before any character
access; otherwise the string with its last character dropped must be all
digits, and the result is `endswith("m") or (endswith("h") and value <= 24)`
where `value` is the numeric prefix (`float` of a digit string is its
natural-number value). -/
def check_pair_age (pair_age : Option PyStr) : Bool :=
  match pair_age with
  | none => false
  | some s =>
    if s.isEmpty || !pyIsdigit s.dropLast then false
    else pyEndsWith s 'm' || (pyEndsWith s 'h' && decide (digitsToNat s.dropLast ≤ 24))

/-- `send_to_telegram` (lines 89–120).  Computes the token address from
`ds_url` (a `None` URL raises `AttributeError` before the `try` block),
performs the HTTP GET (counted as one notification attempt), and on
success (`httpOk`) marks the token as sent; a `RequestException` from the
request or from `raise_for_status` is caught and logged, and the token is
not marked. -/
def send_to_telegram (httpOk writeOk : Bool) (now : ℚ) (c : CoinData)
    (st : ScraperState) : Except PyError ScraperState :=
  match c.ds_url with
  | none => .error .attributeError
  | some url =>
    let token_address := pySplitLast '/' url
    let st1 := { st with notifications := st.notifications + 1 }
    if httpOk then .ok (mark_token_as_sent writeOk now token_address st1)
    else .ok st1

/-- One iteration of the scrape loop (lines 182–190) for an already
extracted coin record: compute the token address (a `None` `ds_url`
raises), then `not was_token_sent_recently and check_price_changes and
check_pair_age` with Python's short-circuit evaluation, notifying on
success. -/
def scrape_step (httpOk writeOk : Bool) (now : ℚ) (c : CoinData)
    (st : ScraperState) : Except PyError ScraperState :=
  match c.ds_url with
  | none => .error .attributeError
  | some url =>
    let token_address := pySplitLast '/' url
    if (was_token_sent_recently now token_address st).1 then .ok st
    else
      match check_price_changes c with
      | .error e => .error e
      | .ok false => .ok st
      | .ok true =>
        if check_pair_age c.pair_age then send_to_telegram httpOk writeOk now c st
        else .ok st

/-! ### Concrete inputs used by witnesses and counterexamples -/

/-- A scraped row whose four percentage fields are all positive, whose pair
age is ten minutes, and whose URL ends in the token address `ABC`. -/
def fastMoverCoin : CoinData :=
  { ds_url := some ("https://dexscreener.com/solana/ABC".toList)
    price_change_m5 := some ("1.2%".toList)
    price_change_h1 := some ("0.5%".toList)
    price_change_h6 := some ("3%".toList)
    price_change_h24 := some ("10%".toList)
    token_symbol := some ("TOK".toList)
    price := some ("$0.001".toList)
    pair_age := some ("10m".toList)
    txns := some ("5".toList)
    volume := some ("$1,000".toList)
    makers := some ("3".toList)
    liquidity := some ("$2,000".toList)
    market_cap := some ("$50,000".toList) }

/-- The same row after the m5 percentage field failed to extract
(`get_coin_data` stored `None`). -/
def noneFieldCoin : CoinData :=
  { fastMoverCoin with price_change_m5 := none }

/-- A scraper state with empty cache and no cache file. -/
def emptyState : ScraperState :=
  { sent_tokens := [], disk := none, notifications := 0, cacheWrites := 0 }

/-- A scraper state holding one cache entry for address `"A"` sent at
timestamp 0. -/
def oneEntryState : ScraperState :=
  { sent_tokens := [("A".toList, 0)], disk := none, notifications := 0, cacheWrites := 0 }

/-! ### Helper lemmas -/

theorem lookup_dictInsert (k : PyStr) (v : ℚ) (m : Cache) :
    List.lookup k (dictInsert k v m) = some v := by
  induction m with
  | nil => simp [dictInsert, List.lookup]
  | cons p rest ih =>
    obtain ⟨k', v'⟩ := p
    by_cases h : k' == k
    · simp [dictInsert, h, List.lookup]
    · simp only [dictInsert, h, if_false, Bool.false_eq_true, List.lookup]
      have hne : (k == k') = false := by
        cases hkk : k == k' with
        | false => rfl
        | true => exact absurd (by simp [beq_iff_eq] at hkk ⊢; exact hkk.symm) (by simpa using h)
      simp [hne, ih]

theorem save_cache_sent_tokens (writeOk : Bool) (st : ScraperState) :
    (save_cache writeOk st).sent_tokens = st.sent_tokens := by
  cases writeOk <;> rfl

theorem save_cache_notifications (writeOk : Bool) (st : ScraperState) :
    (save_cache writeOk st).notifications = st.notifications := by
  cases writeOk <;> rfl

theorem mark_sent_tokens (writeOk : Bool) (now : ℚ) (addr : PyStr) (st : ScraperState) :
    (mark_token_as_sent writeOk now addr st).sent_tokens = dictInsert addr now st.sent_tokens := by
  unfold mark_token_as_sent
  rw [save_cache_sent_tokens]

/-! ### Claim theorems -/

/-- C1: `was_token_sent_recently` returns true iff the token address has a
recorded timestamp `t` in the cache and `now - t < 86400` seconds; an
absent or expired entry yields false. -/
theorem was_token_sent_recently_iff (now : ℚ) (addr : PyStr) (st : ScraperState) :
    (was_token_sent_recently now addr st).1 = true ↔
      ∃ t, List.lookup addr st.sent_tokens = some t ∧ now - t < 86400 := by
  unfold was_token_sent_recently
  cases h : List.lookup addr st.sent_tokens with
  | none => simp [h]
  | some t =>
    simp only [h]
    constructor
    · intro hb
      refine ⟨t, rfl, ?_⟩
      have := of_decide_eq_true hb
      linarith
    · rintro ⟨t', ht', hlt⟩
      rw [Option.some_inj] at ht'
      subst ht'
      exact decide_eq_true (by linarith)

/-- C4: on a successful load, `load_cache` keeps exactly the entries whose
age `now - t` is under 86400 seconds, with their original timestamps, and
removes all the others. -/
theorem load_cache_prunes (m : Cache) (now : ℚ) (a : PyStr) (t : ℚ) :
    (a, t) ∈ load_cache (.content m) now ↔ (a, t) ∈ m ∧ now - t < 86400 := by
  unfold load_cache load_cache_attempt
  simp only [List.mem_filter, decide_eq_true_eq]
  constructor
  · rintro ⟨hm, hlt⟩
    exact ⟨hm, by linarith⟩
  · rintro ⟨hm, hlt⟩
    exact ⟨hm, by linarith⟩

/-- C5: marking a token as sent and immediately checking
`was_token_sent_recently` for it yields true, whether or not the cache
file write succeeded. -/
theorem mark_then_recently_sent (writeOk : Bool) (now : ℚ) (addr : PyStr)
    (st : ScraperState) :
    (was_token_sent_recently now addr (mark_token_as_sent writeOk now addr st)).1 = true := by
  unfold was_token_sent_recently
  rw [mark_sent_tokens, lookup_dictInsert]
  exact decide_eq_true (by linarith)

/-- C7: a missing cache file and a corrupt cache file (where `json.load`
raises) both silently give an empty in-memory cache instead of a fatal
error. -/
theorem load_cache_recovers (now : ℚ) :
    (∃ e, load_cache_attempt .corrupt now = .error e) ∧
    load_cache .corrupt now = [] ∧ load_cache .missing now = [] :=
  ⟨⟨.valueError, rfl⟩, rfl, rfl⟩

/-- C9: `was_token_sent_recently` never mutates the cache: it returns the
state unchanged, and an expired entry is reported as not-recent while
still being present in the returned state's cache. -/
theorem was_token_sent_recently_readonly (now : ℚ) (addr : PyStr) (st : ScraperState) :
    (was_token_sent_recently now addr st).2 = st ∧
    ∀ t, List.lookup addr st.sent_tokens = some t → 86400 ≤ now - t →
      (was_token_sent_recently now addr st).1 = false ∧
      List.lookup addr (was_token_sent_recently now addr st).2.sent_tokens = some t := by
  refine ⟨rfl, fun t ht hexp => ⟨?_, ht⟩⟩
  unfold was_token_sent_recently
  simp only [ht]
  exact decide_eq_false (by linarith)

/-- C9 witness: at `now = 86400`, the entry for `"A"` recorded at time 0 in
`oneEntryState` is expired: the lookup reports false but the entry is still
in the returned state's cache. -/
theorem was_token_sent_recently_readonly_witness :
    (was_token_sent_recently 86400 ("A".toList) oneEntryState).1 = false ∧
    List.lookup ("A".toList)
      (was_token_sent_recently 86400 ("A".toList) oneEntryState).2.sent_tokens = some 0 :=
  (was_token_sent_recently_readonly 86400 ("A".toList) oneEntryState).2 0
    (by decide) (by norm_num)

/-- C10: `mark_token_as_sent` records the timestamp in the in-memory cache
whether or not the disk write succeeds; a failed `save_cache` raises inside
its `try` block but is caught, so the cache file and the fresh in-memory
entry are left as they were (no rollback, no exception). -/
theorem mark_token_as_sent_persists (writeOk : Bool) (now : ℚ) (addr : PyStr)
    (st : ScraperState) :
    List.lookup addr (mark_token_as_sent writeOk now addr st).sent_tokens = some now ∧
    (∃ e, save_cache_attempt false st = .error e) ∧
    (mark_token_as_sent false now addr st).sent_tokens = dictInsert addr now st.sent_tokens ∧
    (mark_token_as_sent false now addr st).disk = st.disk := by
  refine ⟨?_, ⟨.ioError, rfl⟩, rfl, rfl⟩
  rw [mark_sent_tokens, lookup_dictInsert]

/-- C3: on a well-formed age string `<digits><unit>`, `check_pair_age`
accepts exactly minutes, or hours with value at most 24; a string whose
body before the unit is not all digits is rejected, as are the concrete
malformed/unrecognized examples. -/
theorem check_pair_age_spec :
    (∀ num u, num ≠ [] → num.all Char.isDigit = true →
      check_pair_age (some (num ++ [u])) =
        (u == 'm' || (u == 'h' && decide (digitsToNat num ≤ 24)))) ∧
    (∀ s : PyStr, pyIsdigit s.dropLast = false → check_pair_age (some s) = false) ∧
    check_pair_age (some ("5m".toList)) = true ∧
    check_pair_age (some ("24h".toList)) = true ∧
    check_pair_age (some ("25h".toList)) = false ∧
    check_pair_age (some ("3d".toList)) = false ∧
    check_pair_age (some ("".toList)) = false := by
  refine ⟨?_, ?_, by decide, by decide, by decide, by decide, by decide⟩
  · intro num u hne hdig
    have hdrop : (num ++ [u]).dropLast = num := by
      simp [List.dropLast_concat]
    have hisdig : pyIsdigit num = true := by
      unfold pyIsdigit
      simp [hne, hdig]
    have hempty : (num ++ [u]).isEmpty = false := by
      cases num <;> simp
    have hlast : (num ++ [u]).getLast? = some u := by
      simp [List.getLast?_concat]
    have hsome : ∀ a b : Char, (some a == some b) = (a == b) := fun a b => rfl
    simp only [check_pair_age, hempty, hdrop, hisdig, pyEndsWith, hlast, hsome,
      Bool.not_true, Bool.or_false, Bool.false_or, Bool.false_eq_true, if_false]
  · intro s hdig
    simp [check_pair_age, hdig]

/-- C3 witness: the general clause applied to `"7"` and unit `'m'`. -/
theorem check_pair_age_spec_witness :
    check_pair_age (some ("7".toList ++ ['m'])) =
      ('m' == 'm' || ('m' == 'h' && decide (digitsToNat ("7".toList) ≤ 24))) :=
  check_pair_age_spec.1 ("7".toList) 'm' (by decide) (by decide)

/-- C2 counterexample: when the m5 field is `None` (its extraction
failed), `check_price_changes` raises `AttributeError` — the `except`
clause only catches `ValueError` — instead of returning false. -/
theorem check_price_changes_none_raises :
    check_price_changes noneFieldCoin = Except.error PyError.attributeError ∧
    check_price_changes noneFieldCoin ≠ Except.ok false ∧
    check_price_changes noneFieldCoin ≠ Except.ok true := by
  with_unfolding_all decide

/-- C2 amended: when all four percentage fields are present (strings),
`check_price_changes` never raises, and returns true iff every field
parses (after stripping `%` and `,`) to a strictly positive value; a field
`float()` rejects yields false via the caught `ValueError`.  A `None`
field instead raises an uncaught `AttributeError`. -/
theorem check_price_changes_amended (c : CoinData) (s5 s1 s6 s24 : PyStr)
    (hf5 : c.price_change_m5 = some s5) (hf1 : c.price_change_h1 = some s1)
    (hf6 : c.price_change_h6 = some s6) (hf24 : c.price_change_h24 = some s24) :
    (∃ b, check_price_changes c = .ok b) ∧
    (check_price_changes c = .ok true ↔
      ∃ q5 q1 q6 q24, pyFloat (pyStrip s5) = some q5 ∧ pyFloat (pyStrip s1) = some q1 ∧
        pyFloat (pyStrip s6) = some q6 ∧ pyFloat (pyStrip s24) = some q24 ∧
        0 < q5 ∧ 0 < q1 ∧ 0 < q6 ∧ 0 < q24) := by
  have hc : check_price_changes c =
      match parse_changes [some s5, some s1, some s6, some s24] with
      | .error e => .error e
      | .ok none => .ok false
      | .ok (some qs) => .ok (qs.all (fun q => decide (0 < q))) := by
    unfold check_price_changes
    rw [hf5, hf1, hf6, hf24]
  rcases hq5 : pyFloat (pyStrip s5) with _ | q5
  · rw [hc]
    simp [parse_changes, hq5]
  rcases hq1 : pyFloat (pyStrip s1) with _ | q1
  · rw [hc]
    simp [parse_changes, hq5, hq1]
  rcases hq6 : pyFloat (pyStrip s6) with _ | q6
  · rw [hc]
    simp [parse_changes, hq5, hq1, hq6]
  rcases hq24 : pyFloat (pyStrip s24) with _ | q24
  · rw [hc]
    simp [parse_changes, hq5, hq1, hq6, hq24]
  rw [hc]
  simp [parse_changes, hq5, hq1, hq6, hq24, and_assoc]

/-- C2 witness: the amended theorem applied to `fastMoverCoin`, whose four
fields parse to 1.2, 0.5, 3 and 10. -/
theorem check_price_changes_amended_witness :
    check_price_changes fastMoverCoin = Except.ok true := by
  have h := check_price_changes_amended fastMoverCoin ("1.2%".toList) ("0.5%".toList)
    ("3%".toList) ("10%".toList) rfl rfl rfl rfl
  exact h.2.mpr ⟨6/5, 1/2, 3, 10,
    by with_unfolding_all decide, by with_unfolding_all decide,
    by with_unfolding_all decide, by with_unfolding_all decide,
    by norm_num, by norm_num, by norm_num, by norm_num⟩

/-- C6: for a coin whose URL was extracted, `send_to_telegram` returns
normally whatever the HTTP outcome; on delivery failure the cache mapping
and the cache file are untouched (the token will be retried), and the
token is marked exactly when delivery succeeded. -/
theorem send_to_telegram_marks_iff_delivered (httpOk writeOk : Bool) (now : ℚ)
    (c : CoinData) (st : ScraperState) (url : PyStr) (hurl : c.ds_url = some url) :
    ∃ st', send_to_telegram httpOk writeOk now c st = .ok st' ∧
      (httpOk = false → st'.sent_tokens = st.sent_tokens ∧ st'.disk = st.disk) ∧
      (httpOk = true →
        List.lookup (pySplitLast '/' url) st'.sent_tokens = some now) := by
  unfold send_to_telegram
  rw [hurl]
  cases httpOk with
  | false =>
    refine ⟨_, rfl, fun _ => ⟨rfl, rfl⟩, fun h => by simp at h⟩
  | true =>
    refine ⟨_, rfl, fun h => by simp at h, fun _ => ?_⟩
    rw [mark_sent_tokens, lookup_dictInsert]

/-- C6 witness: a failed delivery for `fastMoverCoin` on the empty state
returns normally and leaves the cache unchanged. -/
theorem send_to_telegram_marks_iff_delivered_witness :
    ∃ st', send_to_telegram false true 0 fastMoverCoin emptyState = .ok st' ∧
      st'.sent_tokens = emptyState.sent_tokens ∧ st'.disk = emptyState.disk := by
  obtain ⟨st', heq, hfail, -⟩ :=
    send_to_telegram_marks_iff_delivered false true 0 fastMoverCoin emptyState
      ("https://dexscreener.com/solana/ABC".toList) rfl
  exact ⟨st', heq, hfail rfl⟩

/-- C8: a coin that passes the price filter, has pair age `"10m"`, and
whose address is not in the cache triggers exactly one notification
request and one cache-file write in one pass of the loop body; re-running
the same coin on the resulting state within 24 hours leaves the state
unchanged (zero further notifications, zero further writes). -/
theorem scrape_step_notifies_once (c : CoinData) (st : ScraperState) (now : ℚ)
    (url : PyStr) (hurl : c.ds_url = some url)
    (hpc : check_price_changes c = .ok true)
    (hage : c.pair_age = some ("10m".toList))
    (habs : List.lookup (pySplitLast '/' url) st.sent_tokens = none) :
    ∃ st', scrape_step true true now c st = .ok st' ∧
      st'.notifications = st.notifications + 1 ∧
      st'.cacheWrites = st.cacheWrites + 1 ∧
      ∀ now2, now2 - now < 86400 → scrape_step true true now2 c st' = .ok st' := by
  have hage24 : check_pair_age c.pair_age = true := by
    rw [hage]
    decide
  refine ⟨{ sent_tokens := dictInsert (pySplitLast '/' url) now st.sent_tokens
            disk := some (dictInsert (pySplitLast '/' url) now st.sent_tokens)
            notifications := st.notifications + 1
            cacheWrites := st.cacheWrites + 1 }, ?_, rfl, rfl, ?_⟩
  · unfold scrape_step
    simp [hurl, was_token_sent_recently, habs, hpc, hage24, send_to_telegram,
      mark_token_as_sent, save_cache, save_cache_attempt]
  · intro now2 hlt
    unfold scrape_step
    have hrec : (was_token_sent_recently now2 (pySplitLast '/' url)
        { sent_tokens := dictInsert (pySplitLast '/' url) now st.sent_tokens
          disk := some (dictInsert (pySplitLast '/' url) now st.sent_tokens)
          notifications := st.notifications + 1
          cacheWrites := st.cacheWrites + 1 : ScraperState }).1 = true := by
      unfold was_token_sent_recently
      simp only [lookup_dictInsert]
      exact decide_eq_true (by linarith)
    simp [hurl, hrec]

/-- C8 witness: one pass over `fastMoverCoin` at time 0 on the empty state
notifies once and writes the cache once, and a second pass one hour later
changes nothing. -/
theorem scrape_step_notifies_once_witness :
    ∃ st', scrape_step true true 0 fastMoverCoin emptyState = .ok st' ∧
      st'.notifications = emptyState.notifications + 1 ∧
      st'.cacheWrites = emptyState.cacheWrites + 1 ∧
      scrape_step true true 3600 fastMoverCoin st' = .ok st' := by
  obtain ⟨st', h1, h2, h3, h4⟩ :=
    scrape_step_notifies_once fastMoverCoin emptyState 0
      ("https://dexscreener.com/solana/ABC".toList) rfl
      (by with_unfolding_all decide) rfl (by decide)
  exact ⟨st', h1, h2, h3, h4 3600 (by norm_num)⟩
